import Mathlib

/-!
Verification of the Kepler propagator of the solar-system visualiser.

The Python source (`planet_data.py`, `planets.py`, `main.py`) is embedded
shallowly: floating-point arithmetic is modelled by real arithmetic, the
Python float modulo `x % y` (for `y > 0`) by `x - y * ⌊x / y⌋`, `datetime`
subtraction by an explicit `timedelta` record carrying Python's
normalisation invariant (`0 ≤ seconds < 86400`, `0 ≤ microseconds < 10^6`),
and the `PLANETS` dict by an association list over `String` keys.

All dates enter the propagator only through `days_since_j2000`, so the
time-dependent functions below are parametrised by the elapsed days
`d : ℝ` rather than by a calendar datetime.
-/

open Real

namespace SolarSystem

noncomputable section

/-- Python float modulo for a nonzero modulus: `x % y = x - y * floor (x / y)`.
For `y > 0` the result lies in `[0, y)`, matching CPython semantics. -/
def pymod (x y : ℝ) : ℝ := x - y * ⌊x / y⌋

/-- Embedding of `math.radians`: degrees to radians. -/
def radians (deg : ℝ) : ℝ := deg * (π / 180)

/-- Embedding of `math.atan2 y x` (two-argument arctangent). -/
def atan2 (y x : ℝ) : ℝ :=
  if 0 < x then Real.arctan (y / x)
  else if x < 0 then
    (if 0 ≤ y then Real.arctan (y / x) + π else Real.arctan (y / x) - π)
  else
    (if 0 < y then π / 2 else if y < 0 then -(π / 2) else 0)

/-- One record of the `PLANETS` table of `planet_data.py`: six mean orbital
elements at J2000.0 plus the sidereal period in days. -/
structure OrbitalElements where
  a : ℝ
  e : ℝ
  i : ℝ
  Omega : ℝ
  omega : ℝ
  M0 : ℝ
  period : ℝ

/-- A Python `timedelta` as produced by `date - J2000_EPOCH`: days may be any
integer (negative before the epoch), while Python normalises
`0 ≤ seconds < 86400` and `0 ≤ microseconds < 10^6`. -/
structure Timedelta where
  days : ℤ
  seconds : ℤ
  microseconds : ℤ

/-- The exact offset from the epoch expressed in whole microseconds. -/
def Timedelta.totalMicroseconds (t : Timedelta) : ℤ :=
  (t.days * 86400 + t.seconds) * 1000000 + t.microseconds

/-- Embedding of `days_since_j2000` of `src/python/planet_data.py`:
`delta.days + delta.seconds / 86400.0` (microseconds are dropped). -/
def days_since_j2000 (t : Timedelta) : ℝ :=
  (t.days : ℝ) + (t.seconds : ℝ) / 86400

/-- Embedding of `days_since_epoch` of `src/planets.py`:
`delta.days + delta.seconds / 86400 + delta.microseconds / 86400e6`. -/
def days_since_epoch (t : Timedelta) : ℝ :=
  (t.days : ℝ) + (t.seconds : ℝ) / 86400 + (t.microseconds : ℝ) / 86400000000

/-- Embedding of `mean_anomaly` of `planet_data.py`, parametrised by the
elapsed days `d = days_since_j2000 date`:
`n = 360 / period`, `M = (M0 + n * d) % 360`. -/
def mean_anomaly (el : OrbitalElements) (d : ℝ) : ℝ :=
  let n := 360 / el.period
  pymod (el.M0 + n * d) 360

/-- The normalisation prologue of `solve_kepler`: convert the mean anomaly to
radians (`math.radians(M_deg % 360.0)`) and recentre it via
`(M + pi) % (2*pi) - pi`. -/
def keplerNorm (M_deg : ℝ) : ℝ :=
  let M := radians (pymod M_deg 360)
  pymod (M + π) (2 * π) - π

/-- The Newton-Raphson loop of `solve_kepler`: at each step compute
`correction = (E - e*sin E - M) / (1 - e*cos E)`, subtract it from `E`, and
stop once `|correction| < 1e-10`; at most `fuel` (source: 10) updates run. -/
def keplerIter (e M : ℝ) : ℕ → ℝ → ℝ
  | 0, E => E
  | n + 1, E =>
    let correction := (E - e * Real.sin E - M) / (1 - e * Real.cos E)
    let E2 := E - correction
    if |correction| < 1e-10 then E2 else keplerIter e M n E2

/-- Instrumented copy of `keplerIter` that also counts the Newton-Raphson
updates actually applied. -/
def keplerIterCount (e M : ℝ) : ℕ → ℝ → ℝ × ℕ
  | 0, E => (E, 0)
  | n + 1, E =>
    let correction := (E - e * Real.sin E - M) / (1 - e * Real.cos E)
    let E2 := E - correction
    if |correction| < 1e-10 then (E2, 1)
    else
      let p := keplerIterCount e M n E2
      (p.1, p.2 + 1)

/-- Embedding of `solve_kepler` of `planet_data.py`: normalise `M_deg`,
seed with `M` when `e < 0.8` and with `π` otherwise, then run at most 10
Newton-Raphson iterations. Always returns the current estimate. -/
def solve_kepler (M_deg e : ℝ) : ℝ :=
  let M := keplerNorm M_deg
  let E0 := if e < 0.8 then M else π
  keplerIter e M 10 E0

/-- Embedding of `true_anomaly` of `planet_data.py`:
`ν = 2 * atan2 (sqrt ((1+e)/(1-e)) * sin (E/2)) (cos (E/2))`. -/
def true_anomaly (E e : ℝ) : ℝ :=
  let half_E := E / 2
  2 * atan2 (Real.sqrt ((1 + e) / (1 - e)) * Real.sin half_E) (Real.cos half_E)

/-- The radius formula of `elements_to_xyz`, line 162: `r = a * (1 - e * cos E)`. -/
def radiusFromE (a e E : ℝ) : ℝ := a * (1 - e * Real.cos E)

/-- The radius formula of `generate_orbit_points`, line 216 (polar conic
equation): `r = a * (1 - e*e) / (1 + e * cos ν)`. -/
def conicRadius (a e nu : ℝ) : ℝ := a * (1 - e * e) / (1 + e * Real.cos nu)

/-- Embedding of `elements_to_xyz` of `planet_data.py`, parametrised by the
elapsed days `d`: mean anomaly → Kepler solve → true anomaly → radius from
`E` → 3-1-3 Euler rotation to heliocentric ecliptic coordinates. The
source's intermediates `x_orbital = r cos ν` and `y_orbital = r sin ν` are
dead code (never read) and are omitted. -/
def elements_to_xyz (el : OrbitalElements) (d : ℝ) : ℝ × ℝ × ℝ :=
  let i := radians el.i
  let Om := radians el.Omega
  let om := radians el.omega
  let M := mean_anomaly el d
  let E := solve_kepler M el.e
  let nu := true_anomaly E el.e
  let r := radiusFromE el.a el.e E
  let u := om + nu
  let cos_u := Real.cos u
  let sin_u := Real.sin u
  let cos_Om := Real.cos Om
  let sin_Om := Real.sin Om
  let cos_i := Real.cos i
  let sin_i := Real.sin i
  (r * (cos_Om * cos_u - sin_Om * sin_u * cos_i),
   r * (sin_Om * cos_u + cos_Om * sin_u * cos_i),
   r * (sin_u * sin_i))

/-- Embedding of `elements_to_xy` of `planet_data.py`: the body is exactly
`return elements_to_xyz(elements, date)`. -/
def elements_to_xy (el : OrbitalElements) (d : ℝ) : ℝ × ℝ × ℝ :=
  elements_to_xyz el d

/-- The loop body of `generate_orbit_points` at true anomaly `nu`: conic
radius then the same 3-1-3 rotation as `elements_to_xyz`. -/
def orbitPointNu (el : OrbitalElements) (nu : ℝ) : ℝ × ℝ × ℝ :=
  let i := radians el.i
  let Om := radians el.Omega
  let om := radians el.omega
  let r := conicRadius el.a el.e nu
  let u := om + nu
  let cos_u := Real.cos u
  let sin_u := Real.sin u
  let cos_Om := Real.cos Om
  let sin_Om := Real.sin Om
  let cos_i := Real.cos i
  let sin_i := Real.sin i
  (r * (cos_Om * cos_u - sin_Om * sin_u * cos_i),
   r * (sin_Om * cos_u + cos_Om * sin_u * cos_i),
   r * (sin_u * sin_i))

/-- Embedding of `generate_orbit_points` of `planet_data.py`: sample
`ν = 2π·j / num_points` for `j = 0 .. num_points` inclusive. No date
parameter exists: the path is independent of time by construction. -/
def generate_orbit_points (el : OrbitalElements) (num_points : ℕ) :
    List (ℝ × ℝ × ℝ) :=
  (List.range (num_points + 1)).map fun j : ℕ =>
    orbitPointNu el (2 * π * (j : ℝ) / (num_points : ℝ))

/-- The `PLANETS` table of `planet_data.py` / `planets.py`: J2000.0 mean
elements for the eight planets, keyed by name. -/
def PLANETS : List (String × OrbitalElements) :=
  [("Mercury", ⟨0.387098, 0.205630, 7.0049, 48.331, 29.124, 174.796, 87.969⟩),
   ("Venus", ⟨0.723332, 0.006772, 3.3947, 76.680, 54.884, 50.115, 224.701⟩),
   ("Earth", ⟨1.000000, 0.016710, 0.0000, -11.260, 114.207, 357.517,
     365.256⟩),
   ("Mars", ⟨1.523679, 0.093400, 1.8506, 49.558, 286.503, 19.373, 686.980⟩),
   ("Jupiter", ⟨5.20260, 0.048498, 1.3033, 100.464, 273.867, 20.020,
     4332.589⟩),
   ("Saturn", ⟨9.55491, 0.055508, 2.4852, 113.665, 339.392, 317.020,
     10759.22⟩),
   ("Uranus", ⟨19.2184, 0.046295, 0.7730, 74.006, 96.998, 142.238, 30688.5⟩),
   ("Neptune", ⟨30.1104, 0.008988, 1.7700, 131.784, 272.846, 256.228,
     60182.0⟩)]

/-- Dictionary access `PLANETS[name]`: `some` of the elements when the name
is a key, `none` (Python: `KeyError`) otherwise. -/
def lookupPlanet (name : String) : Option OrbitalElements :=
  (PLANETS.find? fun p => p.1 == name).map Prod.snd

/-- Embedding of `calculate_planet_distance` of `src/main.py`: looks the
body and Earth up in `PLANETS` and returns the triple
`(sun_distance, earth_distance, orbital_speed)`; an absent name propagates
the lookup failure (`KeyError`) instead of defaulting to a position. -/
def calculate_planet_distance (name : String) (d : ℝ) :
    Option (ℝ × ℝ × ℝ) :=
  match lookupPlanet name, lookupPlanet "Earth" with
  | some el, some earthEl =>
    let p := elements_to_xy el d
    let distance_from_sun :=
      Real.sqrt (p.1 * p.1 + p.2.1 * p.2.1 + p.2.2 * p.2.2)
    let q := elements_to_xy earthEl d
    let distance_from_earth :=
      Real.sqrt ((p.1 - q.1) ^ 2 + (p.2.1 - q.2.1) ^ 2 + (p.2.2 - q.2.2) ^ 2)
    let orbital_speed := Real.sqrt (1 / distance_from_sun) * 29.78
    some (distance_from_sun, distance_from_earth, orbital_speed)
  | _, _ => none

/-- The concrete test body of the spec's quarter-period scenario:
`a = 1, e = 0, i = 0, Ω = 0, ω = 0, M0 = 0, period = 365.25`. -/
def circularTestBody : OrbitalElements := ⟨1, 0, 0, 0, 0, 0, 365.25⟩

end

/-! ### Helper lemmas about the Python modulo -/

/-- For a positive modulus the Python modulo is nonnegative. -/
theorem pymod_nonneg (x : ℝ) {y : ℝ} (hy : 0 < y) : 0 ≤ pymod x y := by
  have h := Int.floor_le (x / y)
  have h2 : (⌊x / y⌋ : ℝ) * y ≤ x := (le_div_iff hy).mp h
  unfold pymod
  nlinarith [h2]

/-- For a positive modulus the Python modulo is below the modulus. -/
theorem pymod_lt (x : ℝ) {y : ℝ} (hy : 0 < y) : pymod x y < y := by
  have h := Int.lt_floor_add_one (x / y)
  have h2 : x < ((⌊x / y⌋ : ℝ) + 1) * y := (div_lt_iff hy).mp h
  unfold pymod
  nlinarith [h2]

/-- Shifting the argument by the modulus leaves the Python modulo unchanged. -/
theorem pymod_add_self (x : ℝ) {y : ℝ} (hy : y ≠ 0) :
    pymod (x + y) y = pymod x y := by
  unfold pymod
  have h1 : (x + y) / y = x / y + 1 := by field_simp
  rw [h1]
  have h2 : ⌊x / y + 1⌋ = ⌊x / y⌋ + 1 := by
    have := Int.floor_add_int (x / y) 1
    simpa using this
  rw [h2]
  push_cast
  ring

/-- Unfolding equation for the `solve_kepler` normalisation prologue. -/
theorem keplerNorm_def (M_deg : ℝ) :
    keplerNorm M_deg = pymod (radians (pymod M_deg 360) + π) (2 * π) - π :=
  rfl

/-- The normalisation prologue of `solve_kepler` at `M_deg = 180` lands
exactly on `-π`. -/
theorem keplerNorm_at_180 : keplerNorm 180 = -π := by
  have h0 : pymod 180 360 = 180 := by
    unfold pymod
    have h : ⌊(180 : ℝ) / 360⌋ = 0 := by
      rw [Int.floor_eq_zero_iff]
      constructor <;> norm_num
    rw [h]
    norm_num
  have h1 : radians (pymod 180 360) + π = π + π := by
    rw [h0]; unfold radians; ring
  rw [keplerNorm_def, h1]
  unfold pymod
  have h2 : (π + π) / (2 * π) = 1 := by
    rw [div_eq_one_iff_eq (by positivity)]
    ring
  rw [h2]
  simp
  ring

/-- The normalised mean anomaly used by the Newton-Raphson iteration always
lies in `[-π, π)`. -/
theorem keplerNorm_mem_Ico (M_deg : ℝ) :
    -π ≤ keplerNorm M_deg ∧ keplerNorm M_deg < π := by
  rw [keplerNorm_def]
  have h2pi : (0 : ℝ) < 2 * π := by positivity
  have h1 := pymod_nonneg (radians (pymod M_deg 360) + π) h2pi
  have h2 := pymod_lt (radians (pymod M_deg 360) + π) h2pi
  constructor <;> [linarith; linarith]

/-- C2 counterexample: at `M_deg = 180` the normalised target angle is
exactly `-π`, which does not lie in the claimed interval `(-π, π]`. -/
theorem c2_counterexample :
    ¬ (-π < keplerNorm 180 ∧ keplerNorm 180 ≤ π) := by
  rw [keplerNorm_at_180]
  intro h
  exact lt_irrefl _ h.1

/-- C2 (amended): `solve_kepler` converts `M_deg` to radians and normalises
it into `[-π, π)` (not `(-π, π]`) before Newton-Raphson iteration; the
normalised target angle always lies in `[-π, π)`, and the iteration is seeded
and driven with exactly that angle. -/
theorem c2_normalisation (M_deg e : ℝ) :
    (-π ≤ keplerNorm M_deg ∧ keplerNorm M_deg < π) ∧
    solve_kepler M_deg e =
      keplerIter e (keplerNorm M_deg) 10
        (if e < 0.8 then keplerNorm M_deg else π) :=
  ⟨keplerNorm_mem_Ico M_deg, rfl⟩

/-- Bounds for the time-based radius formula `r = a (1 - e cos E)`. -/
theorem radiusFromE_bounds (a e E : ℝ) (ha : 0 < a) (he0 : 0 ≤ e) :
    a * (1 - e) ≤ radiusFromE a e E ∧ radiusFromE a e E ≤ a * (1 + e) := by
  have hc1 := Real.cos_le_one E
  have hc2 := Real.neg_one_le_cos E
  unfold radiusFromE
  constructor
  · nlinarith [mul_nonneg (mul_nonneg ha.le he0)
      (sub_nonneg.mpr hc1)]
  · nlinarith [mul_nonneg (mul_nonneg ha.le he0)
      (by linarith : (0 : ℝ) ≤ 1 + Real.cos E)]

/-- Bounds for the polar conic radius `r = a (1 - e²) / (1 + e cos ν)`. -/
theorem conicRadius_bounds (a e nu : ℝ) (ha : 0 < a) (he0 : 0 ≤ e)
    (he1 : e < 1) :
    a * (1 - e) ≤ conicRadius a e nu ∧ conicRadius a e nu ≤ a * (1 + e) := by
  have hc1 := Real.cos_le_one nu
  have hc2 := Real.neg_one_le_cos nu
  have hD : 0 < 1 + e * Real.cos nu := by nlinarith
  unfold conicRadius
  constructor
  · rw [le_div_iff₀ hD]
    nlinarith [mul_nonneg (mul_nonneg (mul_nonneg ha.le
      (by linarith : (0 : ℝ) ≤ 1 - e)) he0)
      (by linarith : (0 : ℝ) ≤ 1 - Real.cos nu)]
  · rw [div_le_iff₀ hD]
    nlinarith [mul_nonneg (mul_nonneg (mul_nonneg ha.le
      (by linarith : (0 : ℝ) ≤ 1 + e)) he0)
      (by linarith : (0 : ℝ) ≤ 1 + Real.cos nu)]

/-- C1: for valid elements (`a > 0`, `0 ≤ e < 1`, `period > 0`) and any
elapsed-day value, the radius `a (1 - e cos E)` computed by
`elements_to_xyz`, and the radius `a (1 - e²) / (1 + e cos ν)` computed for
every sample `j` of `generate_orbit_points` over `N` samples, lie within the
periapsis/apoapsis bounds `[a (1-e), a (1+e)]`. -/
theorem c1_radius_bounds (el : OrbitalElements) (d : ℝ) (N j : ℕ)
    (ha : 0 < el.a) (he0 : 0 ≤ el.e) (he1 : el.e < 1)
    (hT : 0 < el.period) :
    (el.a * (1 - el.e) ≤
        radiusFromE el.a el.e (solve_kepler (mean_anomaly el d) el.e) ∧
      radiusFromE el.a el.e (solve_kepler (mean_anomaly el d) el.e) ≤
        el.a * (1 + el.e)) ∧
    (el.a * (1 - el.e) ≤ conicRadius el.a el.e (2 * π * (j : ℝ) / (N : ℝ)) ∧
      conicRadius el.a el.e (2 * π * (j : ℝ) / (N : ℝ)) ≤
        el.a * (1 + el.e)) :=
  ⟨radiusFromE_bounds el.a el.e _ ha he0,
   conicRadius_bounds el.a el.e _ ha he0 he1⟩

/-- Witness for C1 at Mercury's elements, `d = 1000`, sample 3 of 16. -/
theorem c1_radius_bounds_witness :
    (0 : ℝ) < 0.387098 ∧ (0 : ℝ) ≤ 0.205630 ∧ (0.205630 : ℝ) < 1 ∧
    (0 : ℝ) < 87.969 ∧
    ((0.387098 * (1 - 0.205630) ≤
        radiusFromE 0.387098 0.205630
          (solve_kepler
            (mean_anomaly ⟨0.387098, 0.205630, 7.0049, 48.331, 29.124,
              174.796, 87.969⟩ 1000) 0.205630) ∧
      radiusFromE 0.387098 0.205630
          (solve_kepler
            (mean_anomaly ⟨0.387098, 0.205630, 7.0049, 48.331, 29.124,
              174.796, 87.969⟩ 1000) 0.205630) ≤
        0.387098 * (1 + 0.205630)) ∧
    (0.387098 * (1 - 0.205630) ≤
        conicRadius 0.387098 0.205630 (2 * π * (3 : ℕ) / (16 : ℕ)) ∧
      conicRadius 0.387098 0.205630 (2 * π * (3 : ℕ) / (16 : ℕ)) ≤
        0.387098 * (1 + 0.205630))) :=
  ⟨by norm_num, by norm_num, by norm_num, by norm_num,
   c1_radius_bounds ⟨0.387098, 0.205630, 7.0049, 48.331, 29.124, 174.796,
     87.969⟩ 1000 16 3 (by norm_num) (by norm_num) (by norm_num)
     (by norm_num)⟩

/-- The instrumented Newton-Raphson loop computes the same eccentric-anomaly
estimate as the source loop. -/
theorem keplerIterCount_fst (e M : ℝ) :
    ∀ (n : ℕ) (E : ℝ), (keplerIterCount e M n E).1 = keplerIter e M n E := by
  intro n
  induction n with
  | zero => intro E; rfl
  | succ n ih =>
    intro E
    simp only [keplerIterCount, keplerIter]
    split
    · rfl
    · exact ih _

/-- The Newton-Raphson loop applies at most `fuel` updates. -/
theorem keplerIterCount_le (e M : ℝ) :
    ∀ (n : ℕ) (E : ℝ), (keplerIterCount e M n E).2 ≤ n := by
  intro n
  induction n with
  | zero => intro E; exact le_refl 0
  | succ n ih =>
    intro E
    simp only [keplerIterCount]
    split
    · exact Nat.succ_le_succ (Nat.zero_le n)
    · exact Nat.succ_le_succ (ih _)

/-- C3: for `0 ≤ e < 1`, `solve_kepler` returns the estimate of the
Newton-Raphson loop (total — no failure is ever signalled), the loop applies
the update `E ← E - (E - e sin E - M)/(1 - e cos E)` at most 10 times, and
it stops as soon as the magnitude of an applied correction drops below
`1e-10`. -/
theorem c3_newton_iteration (M_deg e : ℝ) (he0 : 0 ≤ e) (he1 : e < 1) :
    solve_kepler M_deg e =
      (keplerIterCount e (keplerNorm M_deg) 10
        (if e < 0.8 then keplerNorm M_deg else π)).1 ∧
    (keplerIterCount e (keplerNorm M_deg) 10
        (if e < 0.8 then keplerNorm M_deg else π)).2 ≤ 10 ∧
    ∀ (n : ℕ) (E : ℝ),
      |(E - e * Real.sin E - keplerNorm M_deg) / (1 - e * Real.cos E)| <
          1e-10 →
      keplerIterCount e (keplerNorm M_deg) (n + 1) E =
        (E - (E - e * Real.sin E - keplerNorm M_deg) /
          (1 - e * Real.cos E), 1) := by
  refine ⟨(keplerIterCount_fst e (keplerNorm M_deg) 10 _).symm,
    keplerIterCount_le e (keplerNorm M_deg) 10 _, ?_⟩
  intro n E h
  simp only [keplerIterCount]
  rw [if_pos h]

/-- Witness for C3 at `M_deg = 0`, `e = 0`. -/
theorem c3_newton_iteration_witness :
    (0 : ℝ) ≤ 0 ∧ (0 : ℝ) < 1 ∧
    (solve_kepler 0 0 =
      (keplerIterCount 0 (keplerNorm 0) 10
        (if (0 : ℝ) < 0.8 then keplerNorm 0 else π)).1 ∧
    (keplerIterCount 0 (keplerNorm 0) 10
        (if (0 : ℝ) < 0.8 then keplerNorm 0 else π)).2 ≤ 10 ∧
    ∀ (n : ℕ) (E : ℝ),
      |(E - 0 * Real.sin E - keplerNorm 0) / (1 - 0 * Real.cos E)| < 1e-10 →
      keplerIterCount 0 (keplerNorm 0) (n + 1) E =
        (E - (E - 0 * Real.sin E - keplerNorm 0) /
          (1 - 0 * Real.cos E), 1)) :=
  ⟨le_refl 0, by norm_num, c3_newton_iteration 0 0 (le_refl 0) (by norm_num)⟩

/-- C10: for every element set and every timestamp, `elements_to_xy` returns
exactly the same `(x, y, z)` triple as `elements_to_xyz`: the 2D convenience
entry point is definitionally the 3D one, not a separate projection. -/
theorem c10_xy_eq_xyz (el : OrbitalElements) (d : ℝ) :
    elements_to_xy el d = elements_to_xyz el d := rfl

/-- C4: for every element set with positive period and every elapsed-day
value, `mean_anomaly` returns exactly `(M0 + (360 / period) * d) mod 360`,
and the result lies in `[0, 360)`. -/
theorem c4_mean_anomaly (el : OrbitalElements) (d : ℝ) (hT : 0 < el.period) :
    mean_anomaly el d = pymod (el.M0 + 360 / el.period * d) 360 ∧
    0 ≤ mean_anomaly el d ∧ mean_anomaly el d < 360 := by
  refine ⟨rfl, ?_, ?_⟩
  · exact pymod_nonneg _ (by norm_num)
  · exact pymod_lt _ (by norm_num)

/-- Witness for C4 at Earth-like inputs: period `365.25 > 0`, and the mean
anomaly at `d = 100` obeys the stated formula and bounds. -/
theorem c4_mean_anomaly_witness :
    (0 : ℝ) < 365.25 ∧
    (mean_anomaly ⟨1, 0, 0, 0, 0, 0, 365.25⟩ 100 =
        pymod (0 + 360 / 365.25 * 100) 360 ∧
      0 ≤ mean_anomaly ⟨1, 0, 0, 0, 0, 0, 365.25⟩ 100 ∧
      mean_anomaly ⟨1, 0, 0, 0, 0, 0, 365.25⟩ 100 < 360) :=
  ⟨by norm_num, c4_mean_anomaly ⟨1, 0, 0, 0, 0, 0, 365.25⟩ 100 (by norm_num)⟩

/-- The orbit-path loop body at `ν = 2π` coincides with the one at `ν = 0`:
the sampled curve closes. -/
theorem orbitPointNu_two_pi (el : OrbitalElements) :
    orbitPointNu el (2 * π) = orbitPointNu el 0 := by
  simp only [orbitPointNu, conicRadius, Real.cos_two_pi, Real.cos_zero,
    Real.cos_add_two_pi, Real.sin_add_two_pi, add_zero]

/-- C5: for any elements and any `N ≥ 1`, `generate_orbit_points` returns
exactly `N + 1` points, the point at index `j ≤ N` is the sample at true
anomaly `2π·j/N`, and the first and last points are identical. The result
takes no timestamp: it is independent of time by its type. -/
theorem c5_orbit_sampling (el : OrbitalElements) (N : ℕ) (hN : 1 ≤ N) :
    (generate_orbit_points el N).length = N + 1 ∧
    (∀ j : ℕ, j ≤ N →
      (generate_orbit_points el N)[j]? =
        some (orbitPointNu el (2 * π * (j : ℝ) / (N : ℝ)))) ∧
    (generate_orbit_points el N)[0]? = (generate_orbit_points el N)[N]? := by
  refine ⟨by simp only [generate_orbit_points, List.length_map,
    List.length_range], ?_, ?_⟩
  · intro j hj
    have hj' : j < N + 1 := Nat.lt_succ_of_le hj
    simp only [generate_orbit_points, List.getElem?_map,
      List.getElem?_range hj', Option.map_some']
  · have hNR : (N : ℝ) ≠ 0 := Nat.cast_ne_zero.mpr (by omega)
    have h0 : (generate_orbit_points el N)[0]? = some (orbitPointNu el 0) := by
      have hlt : (0 : ℕ) < N + 1 := Nat.succ_pos N
      simp only [generate_orbit_points, List.getElem?_map,
        List.getElem?_range hlt, Option.map_some', Nat.cast_zero, mul_zero,
        zero_div]
    have hlast : (generate_orbit_points el N)[N]? =
        some (orbitPointNu el (2 * π)) := by
      have hlt : N < N + 1 := Nat.lt_succ_self N
      simp only [generate_orbit_points, List.getElem?_map,
        List.getElem?_range hlt, Option.map_some']
      rw [mul_div_assoc, div_self hNR, mul_one]
    rw [h0, hlast, orbitPointNu_two_pi]

/-- Witness for C5 at the circular test body with `N = 2`. -/
theorem c5_orbit_sampling_witness :
    1 ≤ 2 ∧
    ((generate_orbit_points ⟨1, 0, 0, 0, 0, 0, 365.25⟩ 2).length = 2 + 1 ∧
    (∀ j : ℕ, j ≤ 2 →
      (generate_orbit_points ⟨1, 0, 0, 0, 0, 0, 365.25⟩ 2)[j]? =
        some (orbitPointNu ⟨1, 0, 0, 0, 0, 0, 365.25⟩
          (2 * π * (j : ℝ) / (2 : ℕ)))) ∧
    (generate_orbit_points ⟨1, 0, 0, 0, 0, 0, 365.25⟩ 2)[0]? =
      (generate_orbit_points ⟨1, 0, 0, 0, 0, 0, 365.25⟩ 2)[2]?) :=
  ⟨by norm_num, c5_orbit_sampling ⟨1, 0, 0, 0, 0, 0, 365.25⟩ 2 (by norm_num)⟩

/-- Advancing the elapsed days by one period leaves the mean anomaly
unchanged. -/
theorem mean_anomaly_add_period (el : OrbitalElements) (d : ℝ)
    (hT : 0 < el.period) :
    mean_anomaly el (d + el.period) = mean_anomaly el d := by
  simp only [mean_anomaly]
  have h : el.M0 + 360 / el.period * (d + el.period) =
      (el.M0 + 360 / el.period * d) + 360 := by
    field_simp
    ring
  rw [h, pymod_add_self _ (by norm_num : (360 : ℝ) ≠ 0)]

/-- Advancing the elapsed days by one period reproduces the position
exactly. -/
theorem elements_to_xyz_add_period (el : OrbitalElements) (d : ℝ)
    (hT : 0 < el.period) :
    elements_to_xyz el (d + el.period) = elements_to_xyz el d := by
  unfold elements_to_xyz
  rw [mean_anomaly_add_period el d hT]

/-- C6: for valid elements and any elapsed-day value `d`, the positions at
`d` and at `d + period` agree coordinate-wise within `1e-6` AU (in the real
model they agree exactly). -/
theorem c6_periodicity (el : OrbitalElements) (d : ℝ) (ha : 0 < el.a)
    (he0 : 0 ≤ el.e) (he1 : el.e < 1) (hT : 0 < el.period) :
    |(elements_to_xyz el (d + el.period)).1 - (elements_to_xyz el d).1| ≤
        1e-6 ∧
    |(elements_to_xyz el (d + el.period)).2.1 -
        (elements_to_xyz el d).2.1| ≤ 1e-6 ∧
    |(elements_to_xyz el (d + el.period)).2.2 -
        (elements_to_xyz el d).2.2| ≤ 1e-6 := by
  rw [elements_to_xyz_add_period el d hT]
  refine ⟨?_, ?_, ?_⟩ <;> · simp only [sub_self, abs_zero]; norm_num

/-- Witness for C6 at the circular test body, `d = 0`. -/
theorem c6_periodicity_witness :
    (0 : ℝ) < 1 ∧ (0 : ℝ) ≤ 0 ∧ (0 : ℝ) < 1 ∧ (0 : ℝ) < 365.25 ∧
    (|(elements_to_xyz ⟨1, 0, 0, 0, 0, 0, 365.25⟩
        (0 + OrbitalElements.period ⟨1, 0, 0, 0, 0, 0, 365.25⟩)).1 -
        (elements_to_xyz ⟨1, 0, 0, 0, 0, 0, 365.25⟩ 0).1| ≤ 1e-6 ∧
    |(elements_to_xyz ⟨1, 0, 0, 0, 0, 0, 365.25⟩
        (0 + OrbitalElements.period ⟨1, 0, 0, 0, 0, 0, 365.25⟩)).2.1 -
        (elements_to_xyz ⟨1, 0, 0, 0, 0, 0, 365.25⟩ 0).2.1| ≤ 1e-6 ∧
    |(elements_to_xyz ⟨1, 0, 0, 0, 0, 0, 365.25⟩
        (0 + OrbitalElements.period ⟨1, 0, 0, 0, 0, 0, 365.25⟩)).2.2 -
        (elements_to_xyz ⟨1, 0, 0, 0, 0, 0, 365.25⟩ 0).2.2| ≤ 1e-6) :=
  ⟨by norm_num, le_refl 0, by norm_num, by norm_num,
   c6_periodicity ⟨1, 0, 0, 0, 0, 0, 365.25⟩ 0 (by norm_num) (le_refl 0)
     (by norm_num) (by norm_num)⟩

/-- C7: `days_since_epoch` computes the exact signed fractional days (its
value is the integer microsecond offset divided by `86400e6`, positive
exactly for timestamps after the epoch and negative exactly for ones
before); `days_since_j2000` drops the microsecond term, undershooting the
exact value by strictly less than one second (`1/86400` day) and agreeing
with it exactly on whole-second offsets. -/
theorem c7_elapsed_days (t : Timedelta) (hs0 : 0 ≤ t.seconds)
    (hs1 : t.seconds < 86400) (hm0 : 0 ≤ t.microseconds)
    (hm1 : t.microseconds < 1000000) :
    days_since_epoch t = (t.totalMicroseconds : ℝ) / 86400000000 ∧
    (0 < days_since_epoch t ↔ 0 < t.totalMicroseconds) ∧
    (days_since_epoch t < 0 ↔ t.totalMicroseconds < 0) ∧
    0 ≤ days_since_epoch t - days_since_j2000 t ∧
    days_since_epoch t - days_since_j2000 t < 1 / 86400 ∧
    (t.microseconds = 0 → days_since_j2000 t = days_since_epoch t) := by
  have h_eq : days_since_epoch t = (t.totalMicroseconds : ℝ) / 86400000000 := by
    unfold days_since_epoch Timedelta.totalMicroseconds
    push_cast
    field_simp
    ring
  have h_diff : days_since_epoch t - days_since_j2000 t =
      (t.microseconds : ℝ) / 86400000000 := by
    unfold days_since_epoch days_since_j2000
    ring
  have hm0' : (0 : ℝ) ≤ (t.microseconds : ℝ) := by exact_mod_cast hm0
  have hm1' : (t.microseconds : ℝ) < 1000000 := by exact_mod_cast hm1
  refine ⟨h_eq, ?_, ?_, ?_, ?_, ?_⟩
  · rw [h_eq, lt_div_iff₀ (by norm_num : (0 : ℝ) < 86400000000)]
    simp [Int.cast_pos]
  · rw [h_eq, div_lt_iff₀ (by norm_num : (0 : ℝ) < 86400000000)]
    simp [Int.cast_lt_zero]
  · rw [h_diff]
    positivity
  · rw [h_diff, div_lt_iff₀ (by norm_num : (0 : ℝ) < 86400000000)]
    nlinarith [hm1']
  · intro h
    unfold days_since_j2000 days_since_epoch
    rw [h]
    norm_num

/-- Witness for C7 one day, one hour and half a second after the epoch. -/
theorem c7_elapsed_days_witness :
    (0 : ℤ) ≤ 3600 ∧ (3600 : ℤ) < 86400 ∧ (0 : ℤ) ≤ 500000 ∧
    (500000 : ℤ) < 1000000 ∧
    (days_since_epoch ⟨1, 3600, 500000⟩ =
      (Timedelta.totalMicroseconds ⟨1, 3600, 500000⟩ : ℝ) / 86400000000 ∧
    (0 < days_since_epoch ⟨1, 3600, 500000⟩ ↔
      0 < Timedelta.totalMicroseconds ⟨1, 3600, 500000⟩) ∧
    (days_since_epoch ⟨1, 3600, 500000⟩ < 0 ↔
      Timedelta.totalMicroseconds ⟨1, 3600, 500000⟩ < 0) ∧
    0 ≤ days_since_epoch ⟨1, 3600, 500000⟩ -
      days_since_j2000 ⟨1, 3600, 500000⟩ ∧
    days_since_epoch ⟨1, 3600, 500000⟩ -
      days_since_j2000 ⟨1, 3600, 500000⟩ < 1 / 86400 ∧
    (Timedelta.microseconds ⟨1, 3600, 500000⟩ = 0 →
      days_since_j2000 ⟨1, 3600, 500000⟩ =
        days_since_epoch ⟨1, 3600, 500000⟩)) :=
  ⟨by norm_num, by norm_num, by norm_num, by norm_num,
   c7_elapsed_days ⟨1, 3600, 500000⟩ (by norm_num) (by norm_num)
     (by norm_num) (by norm_num)⟩

/-- A name absent from the table makes the lookup fail. -/
theorem lookupPlanet_of_not_mem (name : String)
    (h : name ∉ PLANETS.map Prod.fst) : lookupPlanet name = none := by
  unfold lookupPlanet
  rw [Option.map_eq_none', List.find?_eq_none]
  intro x hx
  simp only [beq_iff_eq]
  intro hEq
  exact h (List.mem_map.mpr ⟨x, hx, hEq⟩)

/-- A name present in the table makes the lookup succeed. -/
theorem lookupPlanet_of_mem (name : String)
    (h : name ∈ PLANETS.map Prod.fst) :
    ∃ el, lookupPlanet name = some el := by
  unfold lookupPlanet
  obtain ⟨x, hx, hfst⟩ := List.mem_map.mp h
  have hsome : (PLANETS.find? fun p => p.1 == name).isSome := by
    rw [List.find?_isSome]
    exact ⟨x, hx, by simp [hfst]⟩
  obtain ⟨y, hy⟩ := Option.isSome_iff_exists.mp hsome
  exact ⟨y.2, by rw [hy]; rfl⟩

/-- The `"Earth"` lookup inside `calculate_planet_distance` succeeds. -/
theorem lookupPlanet_earth : ∃ el, lookupPlanet "Earth" = some el := by
  unfold lookupPlanet PLANETS
  simp

/-- C8: querying a name absent from the element table fails (the lookup and
`calculate_planet_distance` both return `none`, surfacing the `KeyError` —
no position is silently defaulted), while a name present in the table never
produces this error. -/
theorem c8_unknown_body (name : String) (d : ℝ) :
    (name ∉ PLANETS.map Prod.fst →
      lookupPlanet name = none ∧ calculate_planet_distance name d = none) ∧
    (name ∈ PLANETS.map Prod.fst →
      ∃ v, calculate_planet_distance name d = some v) := by
  constructor
  · intro h
    have hn := lookupPlanet_of_not_mem name h
    exact ⟨hn, by simp only [calculate_planet_distance, hn]⟩
  · intro h
    obtain ⟨el, hel⟩ := lookupPlanet_of_mem name h
    obtain ⟨eE, hE⟩ := lookupPlanet_earth
    have hsome : (calculate_planet_distance name d).isSome := by
      simp only [calculate_planet_distance, hel, hE, Option.isSome_some]
    exact Option.isSome_iff_exists.mp hsome

/-- Witness for C8: `"Pluto"` is absent and fails, `"Mercury"` is present
and succeeds. -/
theorem c8_unknown_body_witness :
    ("Pluto" ∉ PLANETS.map Prod.fst) ∧
    (lookupPlanet "Pluto" = none ∧
      calculate_planet_distance "Pluto" 0 = none) ∧
    ("Mercury" ∈ PLANETS.map Prod.fst) ∧
    (∃ v, calculate_planet_distance "Mercury" 0 = some v) := by
  have hP : "Pluto" ∉ PLANETS.map Prod.fst := by unfold PLANETS; simp
  have hM : "Mercury" ∈ PLANETS.map Prod.fst := by unfold PLANETS; simp
  exact ⟨hP, (c8_unknown_body "Pluto" 0).1 hP, hM,
    (c8_unknown_body "Mercury" 0).2 hM⟩

/-- If the Newton-Raphson correction at the current estimate is already
below the tolerance, the loop applies it once and stops. -/
theorem keplerIter_stop (e M : ℝ) (n : ℕ) (E : ℝ)
    (h : |(E - e * Real.sin E - M) / (1 - e * Real.cos E)| < 1e-10) :
    keplerIter e M (n + 1) E =
      E - (E - e * Real.sin E - M) / (1 - e * Real.cos E) := by
  simp only [keplerIter]
  rw [if_pos h]

/-- The mean anomaly of the circular test body a quarter period after the
epoch is exactly 90 degrees. -/
theorem circular_mean_anomaly :
    mean_anomaly circularTestBody 91.3125 = 90 := by
  show pymod (0 + 360 / 365.25 * 91.3125) 360 = 90
  have h : (0 + 360 / 365.25 * 91.3125 : ℝ) = 90 := by norm_num
  rw [h]
  unfold pymod
  have hf : ⌊(90 : ℝ) / 360⌋ = 0 := by
    rw [Int.floor_eq_zero_iff]
    constructor <;> norm_num
  rw [hf]
  norm_num

/-- Normalising a 90-degree mean anomaly yields `π/2` radians. -/
theorem keplerNorm_at_90 : keplerNorm 90 = π / 2 := by
  rw [keplerNorm_def]
  have h0 : pymod 90 360 = 90 := by
    unfold pymod
    have hf : ⌊(90 : ℝ) / 360⌋ = 0 := by
      rw [Int.floor_eq_zero_iff]
      constructor <;> norm_num
    rw [hf]
    norm_num
  rw [h0]
  have h1 : radians 90 = π / 2 := by unfold radians; ring
  rw [h1]
  unfold pymod
  have h2 : ⌊(π / 2 + π) / (2 * π)⌋ = 0 := by
    rw [Int.floor_eq_zero_iff]
    constructor
    · positivity
    · rw [div_lt_one (by positivity)]
      nlinarith [pi_pos]
  rw [h2]
  push_cast
  ring

/-- Solving Kepler's equation at `M = 90°`, `e = 0` returns exactly `π/2`:
the first correction is zero, so the loop stops immediately. -/
theorem solve_kepler_90_0 : solve_kepler 90 0 = π / 2 := by
  show keplerIter 0 (keplerNorm 90) 10
    (if (0 : ℝ) < 0.8 then keplerNorm 90 else π) = π / 2
  rw [keplerNorm_at_90, if_pos (by norm_num : (0 : ℝ) < 0.8)]
  show keplerIter 0 (π / 2) (9 + 1) (π / 2) = π / 2
  have hc : (π / 2 - 0 * Real.sin (π / 2) - π / 2) /
      (1 - 0 * Real.cos (π / 2)) = 0 := by norm_num
  rw [keplerIter_stop 0 (π / 2) 9 (π / 2) (by rw [hc]; norm_num), hc]
  ring

/-- The true anomaly at `E = π/2`, `e = 0` is exactly `π/2`. -/
theorem true_anomaly_pi_div_two : true_anomaly (π / 2) 0 = π / 2 := by
  show 2 * atan2 (Real.sqrt ((1 + 0) / (1 - 0)) * Real.sin (π / 2 / 2))
    (Real.cos (π / 2 / 2)) = π / 2
  have h1 : ((1 : ℝ) + 0) / (1 - 0) = 1 := by norm_num
  have h2 : (π / 2 / 2 : ℝ) = π / 4 := by ring
  rw [h1, Real.sqrt_one, one_mul, h2, Real.sin_pi_div_four,
    Real.cos_pi_div_four]
  unfold atan2
  have h3 : (0 : ℝ) < Real.sqrt 2 / 2 := by positivity
  rw [if_pos h3, div_self h3.ne', Real.arctan_one]
  ring

/-- C9: for the element set `a=1, e=0, i=0, Ω=0, ω=0, M0=0, period=365.25`,
querying `elements_to_xyz` at epoch + 91.3125 days (a quarter period)
returns exactly `(0, 1, 0)` AU, and the true anomaly at that instant is
exactly `π/2` (90 degrees). -/
theorem c9_quarter_period :
    elements_to_xyz circularTestBody 91.3125 = (0, 1, 0) ∧
    true_anomaly (solve_kepler (mean_anomaly circularTestBody 91.3125)
      circularTestBody.e) circularTestBody.e = π / 2 := by
  have he : circularTestBody.e = 0 := rfl
  have ha : circularTestBody.a = 1 := rfl
  have hi : circularTestBody.i = 0 := rfl
  have hOm : circularTestBody.Omega = 0 := rfl
  have hom : circularTestBody.omega = 0 := rfl
  have hr0 : radians 0 = 0 := by unfold radians; ring
  constructor
  · simp only [elements_to_xyz]
    rw [he, ha, hi, hOm, hom, circular_mean_anomaly, solve_kepler_90_0,
      true_anomaly_pi_div_two, hr0]
    norm_num [radiusFromE, Real.cos_pi_div_two, Real.sin_pi_div_two,
      Real.cos_zero, Real.sin_zero, Prod.ext_iff]
  · rw [he, circular_mean_anomaly, solve_kepler_90_0,
      true_anomaly_pi_div_two]

end SolarSystem
